import Mathlib

/-!
Verification of the chomikai batch preview fetcher and its progress event
stream (`src/chomikai/routers/auth.py`), shallowly embedded in Lean 4.

Modelling conventions:
* A Python dict field that may be missing is an `Option`; the mutable
  `thumbnailUrl` slot of an item dict is `Option (Option String)`:
  `none` means the key is not present yet (never written), `some none` is the
  explicit Python `None` marker, `some (some u)` is a URL string.
* Remote Google API calls are parameters of the model: each call site is a
  function returning `Except String α`, an `Except.error` being a raised
  exception of the underlying client library.
* The SSE generator `event_stream` is embedded as a pure function from the
  remote behaviour (and a completion order for the thread pool) to the list
  of events it yields, paired with the list of remote calls it causes.
  Thread completion order only affects which future settles at each loop
  iteration; the shared item list is mutated slot-wise, one slot per worker,
  so the final list is order-independent and is modelled directly.
* Python float percentages are modelled as `ℚ`; every claim checked below
  depends only on the exact values `0` and `100` and on the integer counters,
  which float arithmetic represents exactly.
-/

namespace Chomikai

/-- One Drive file dict as returned by `files().list` with
`fields="files(id, name, createdTime, modifiedTime, webViewLink)"`, plus the
`thumbnailUrl` slot that `_fetch_thumbnail` writes in place. -/
structure ItemRecord where
  id : Option String
  name : Option String
  createdTime : Option String
  modifiedTime : Option String
  webViewLink : Option String
  thumbnailUrl : Option (Option String) := none
  deriving Repr, DecidableEq

/-- Python truthiness of an optional string: `None` and `""` are falsy. -/
def pyTruthy : Option String → Bool
  | none => false
  | some s => s ≠ ""

/-- Behaviour of the remote Slides API for one presentation: the
`presentations().get(..., fields="slides(objectId)")` call (`none` inside the
outer `Except` means the response has no `slides` key; each slide dict may
lack `objectId`), and the `pages().getThumbnail` call for a given object id
(the response may lack `contentUrl`). -/
structure RemotePreview where
  getSlides : Except String (Option (List (Option String)))
  getThumb : String → Except String (Option String)

/-- A remote HTTP call made by the router, for effect tracking. -/
inductive RemoteCall where
  | filesList
  | slidesGet (presentationId : String)
  | getThumbnail (presentationId : String) (objectId : String)
  deriving Repr, DecidableEq

/-- Body of the `try` block of `_fetch_thumbnail` (source lines 248-283):
resolve the first slide's object id, then the thumbnail content URL.
`presentation.get("slides", [{}])[0]` defaults to `[{}]` when the key is
missing and raises `IndexError` on an empty list; a falsy object id takes the
`else` branch yielding the `None` marker. Returns the computed value for
`thumbnailUrl` or the raised exception, together with the remote calls made. -/
def fetchBody (remote : RemotePreview) (pid : String) :
    Except String (Option String) × List RemoteCall :=
  match remote.getSlides with
  | Except.error e => (Except.error e, [RemoteCall.slidesGet pid])
  | Except.ok slidesField =>
      match slidesField.getD [none] with
      | [] => (Except.error "list index out of range", [RemoteCall.slidesGet pid])
      | firstSlide :: _ =>
          match firstSlide with
          | some oid =>
              if oid = "" then (Except.ok none, [RemoteCall.slidesGet pid])
              else (remote.getThumb oid,
                [RemoteCall.slidesGet pid, RemoteCall.getThumbnail pid oid])
          | none => (Except.ok none, [RemoteCall.slidesGet pid])

/-- The worker unit `_fetch_thumbnail` (source lines 220-287) with its
exception behaviour explicit: a falsy presentation id short-circuits to the
`None` marker with no remote call; otherwise the `try` body runs and the
`except Exception` handler (the `Except.error` case of the match) converts any
raised exception into the `None` marker. The result type records whether an
exception escapes the unit to its caller. -/
def fetchThumbnailE (remote : RemotePreview) (fd : ItemRecord) :
    Except String ItemRecord × List RemoteCall :=
  if pyTruthy fd.id then
    match fetchBody remote (fd.id.getD "") with
    | (Except.ok u, calls) =>
        (Except.ok { fd with thumbnailUrl := some u }, calls)
    | (Except.error _, calls) =>
        (Except.ok { fd with thumbnailUrl := some none }, calls)
  else (Except.ok { fd with thumbnailUrl := some none }, [])

/-- One iteration of the coordinator's per-future handling (source lines
396-413): take the worker's outcome; if the worker had raised, patch a missing
`thumbnailUrl` slot. Since `_fetch_thumbnail` catches every exception, the
patching branch is dead code kept for faithfulness. -/
def settleOne (remote : RemotePreview) (fd : ItemRecord) : ItemRecord :=
  match (fetchThumbnailE remote fd).1 with
  | Except.ok r => r
  | Except.error _ =>
      if fd.thumbnailUrl = none then { fd with thumbnailUrl := some none } else fd

/-- Final state of the shared `files` list once every submitted worker has
settled: each worker owns exactly the slot of the item it was submitted with,
so the list keeps its length and order and slot `i` holds the outcome of the
worker for item `i` (`remotes i` is that worker's remote behaviour). -/
def settleAll (remotes : ℕ → RemotePreview) : ℕ → List ItemRecord → List ItemRecord
  | _, [] => []
  | i, fd :: rest => settleOne (remotes i) fd :: settleAll remotes (i + 1) rest

/-- Remote calls performed by all submitted workers. -/
def workerCalls (remotes : ℕ → RemotePreview) : ℕ → List ItemRecord → List RemoteCall
  | _, [] => []
  | i, fd :: rest =>
      (fetchThumbnailE (remotes i) fd).2 ++ workerCalls remotes (i + 1) rest

/-- One SSE event as yielded by `event_stream`. -/
inductive SseEvent where
  | progress (percent : ℚ) (processed : ℕ) (total : ℕ)
  | complete (html : String)
  | error (msg : String)
  deriving Repr, DecidableEq

/-- Percentage computed in the `finally` block (source lines 416-420):
`(processed / total) * 100 if total > 0 else 100`. -/
def percentOf (processed total : ℕ) : ℚ :=
  if 0 < total then ((processed : ℚ) / (total : ℚ)) * 100 else 100

/-- The initial progress event (source lines 374-383): `percent 100` when
there are no files, `percent 0` otherwise. -/
def firstProgress (n : ℕ) : SseEvent :=
  if n = 0 then SseEvent.progress 100 0 0 else SseEvent.progress 0 0 n

/-- Progress events yielded by the `as_completed` loop (source lines
396-429): one event per settled future, the counter incremented exactly once
per iteration. `order` is the sequence of item indices in real completion
order; the emitted event depends only on the counter and the fixed total. -/
def loopEvents (total : ℕ) : List ℕ → ℕ → List SseEvent
  | [], _ => []
  | _ :: rest, processed =>
      SseEvent.progress (percentOf (processed + 1) total) (processed + 1) total ::
        loopEvents total rest (processed + 1)

/-- Remote corpus seen by the Drive `files().list` call: the matching files in
the upstream order, and whether the `execute()` call raises. Failures of any
step before the listing response is obtained (credential reconstruction,
service build, the HTTP call itself) are all merged into `listFailure`, since
each one reaches the same outer `except` handler. -/
structure DriveState where
  allItems : List ItemRecord
  listFailure : Option String

/-- Semantics of one `files().list(..., pageSize=ps).execute()` call: at most
the first `ps` matching files are returned. The source issues exactly one such
call and does not request or follow `nextPageToken` (source lines 360-368). -/
def driveFilesList (d : DriveState) (ps : ℕ) : Except String (List ItemRecord) :=
  match d.listFailure with
  | some e => Except.error e
  | none => Except.ok (d.allItems.take ps)

/-- Page size passed to the single listing call (source line 366). -/
def PAGE_SIZE : ℕ := 1000

/-- Worker budget of the thread pool (source line 385). -/
def MAX_WORKERS : ℕ := 15

/-- Environment of one batch: the Drive corpus, the per-item Slides API
behaviour (indexed by the item's position in the listing), and the final
template rendering step, which may raise. -/
structure BatchEnv where
  drive : DriveState
  remotes : ℕ → RemotePreview
  render : List ItemRecord → Except String String

/-- Terminal error event produced by the outer `except` handler
(source lines 449-452). -/
def errEvent (e : String) : SseEvent :=
  SseEvent.error ("An error occurred: " ++ e)

/-- The SSE generator `event_stream` (source lines 340-454): list the files
(one listing call), yield the initial progress event, submit one worker per
file to the pool, yield one progress event per settled future, then render
the final HTML and yield `complete`; any exception outside the per-item
handling (listing or rendering) is caught once by the outer handler, which
yields a single `error` event. Returns the yielded events and the remote
calls made. -/
def eventStream (env : BatchEnv) (order : List ℕ) :
    List SseEvent × List RemoteCall :=
  match driveFilesList env.drive PAGE_SIZE with
  | Except.error e => ([errEvent e], [RemoteCall.filesList])
  | Except.ok files =>
      let settled := settleAll env.remotes 0 files
      let tailEvents :=
        match env.render settled with
        | Except.ok html => [SseEvent.complete html]
        | Except.error e => [errEvent e]
      (firstProgress files.length ::
          (loopEvents files.length order 0 ++ tailEvents),
        RemoteCall.filesList :: workerCalls env.remotes 0 files)

/-- The credential dict stored in the session by the OAuth2 callback
(source lines 208-215). -/
structure CredDict where
  token : Option String
  refreshToken : Option String
  tokenUri : Option String
  clientId : Option String
  clientSecret : Option String
  scopes : List String
  deriving Repr, DecidableEq

/-- The per-user session: the optional stored credential dict and the
optional stored OAuth2 `state`. -/
structure Session where
  credentials : Option CredDict := none
  state : Option String := none
  deriving Repr, DecidableEq

/-- Response of the `/presentations` route, abstracted. -/
inductive RouteResponse where
  | redirect (url : String) (statusCode : ℕ)
  | fileResponse (path : String)
  | httpError (statusCode : ℕ) (detail : String)
  | eventStreamResponse (events : List SseEvent)
  deriving Repr, DecidableEq

/-- Substring test used for the Accept header check
(`"text/event-stream" not in accept_header`, source line 331). -/
def strContains (s sub : String) : Bool :=
  s.toList.tails.any fun t => sub.toList.isPrefixOf t

/-- Modelled from the spec: the static placeholder page
(`frontend/progress.html`) is a repository asset that is not under `src/`;
the spec states that when the client does not request the event stream "a
static placeholder representation is returned instead", so the page is
modelled as present on disk. -/
def progressPagePresent : Bool := true

/-- The `/presentations` route handler `list_presentations` (source lines
290-457): redirect to the login flow when the session holds no credentials;
otherwise serve the static progress page when the Accept header does not ask
for `text/event-stream` (404 when that page file is missing), else run the
batch and stream its events. The second component is the list of remote calls
the request causes. -/
def listPresentations (session : Session) (acceptHeader : String)
    (pageExists : Bool) (env : BatchEnv) (order : List ℕ) :
    RouteResponse × List RemoteCall :=
  match session.credentials with
  | none => (RouteResponse.redirect "/login" 303, [])
  | some _ =>
      if strContains acceptHeader "text/event-stream" then
        let res := eventStream env order
        (RouteResponse.eventStreamResponse res.1, res.2)
      else if pageExists then (RouteResponse.fileResponse "progress.html", [])
      else (RouteResponse.httpError 404 "Progress page not found", [])

/-- Result of the OAuth2 callback route, abstracted. `unhandled` is an
exception raised by the token exchange itself, which the handler does not
catch. -/
inductive CallbackResult where
  | httpError (statusCode : ℕ) (detail : String)
  | redirect (url : String)
  | unhandled (msg : String)
  deriving Repr, DecidableEq

/-- The external token exchange (`flow.fetch_token`), as an oracle. -/
structure TokenExchange where
  fetchToken : String → Except String CredDict

/-- Python comparison `state != request.session.get("state")`, negated: the
query parameter matches only when a state is stored and equal to it (a string
never equals `None`). -/
def stateMatches (session : Session) (state : String) : Bool :=
  match session.state with
  | some s => state = s
  | none => false

/-- The `/oauth2callback` handler `oauth2_callback` (source lines 173-217):
400 when the `error` query parameter is non-empty; 400 on state mismatch;
otherwise exchange the code and store the credential dict in the session.
Returns the response and the session after the request. -/
def oauth2Callback (session : Session) (exchange : TokenExchange)
    (code state err : String) : CallbackResult × Session :=
  if 0 < err.length then (CallbackResult.httpError 400 err, session)
  else if stateMatches session state = false then
    (CallbackResult.httpError 400 "State mismatch", session)
  else
    match exchange.fetchToken code with
    | Except.error e => (CallbackResult.unhandled e, session)
    | Except.ok creds =>
        (CallbackResult.redirect "/presentations",
          { session with credentials := some creds })

/-- Processed counters carried by the progress events of an event list, in
emission order. -/
def processedCounts (events : List SseEvent) : List ℕ :=
  events.filterMap fun e =>
    match e with
    | SseEvent.progress _ p _ => some p
    | _ => none

/-- Pairing between an input item and its settled counterpart: all listing
fields unchanged, and the preview slot populated (URL or `None` marker). -/
def SettledMatch (a b : ItemRecord) : Prop :=
  b.id = a.id ∧ b.name = a.name ∧ b.createdTime = a.createdTime ∧
    b.modifiedTime = a.modifiedTime ∧ b.webViewLink = a.webViewLink ∧
    ∃ v, b.thumbnailUrl = some v

/-- A single item's preview resolution fails: the id is falsy, or the try
body of the worker raises, or it completes without producing a URL. -/
def previewResolutionFails (remote : RemotePreview) (fd : ItemRecord) : Prop :=
  pyTruthy fd.id = false ∨
    (∃ e, (fetchBody remote (fd.id.getD "")).1 = Except.error e) ∨
    (fetchBody remote (fd.id.getD "")).1 = Except.ok none

/-- The worker unit always returns normally, writing some value (URL or
marker) into the preview slot and touching no other field. -/
theorem fetchThumbnailE_fst_ok (remote : RemotePreview) (fd : ItemRecord) :
    ∃ v : Option String,
      (fetchThumbnailE remote fd).1 =
        Except.ok { fd with thumbnailUrl := some v } := by
  unfold fetchThumbnailE
  by_cases h : pyTruthy fd.id
  · simp only [h, if_true]
    rcases hfb : fetchBody remote (fd.id.getD "") with ⟨res, calls⟩
    cases res with
    | ok u => exact ⟨u, rfl⟩
    | error e => exact ⟨none, rfl⟩
  · exact ⟨none, by simp [h]⟩

/-- The coordinator's per-future handling leaves the item with a populated
preview slot and unchanged listing fields. -/
theorem settleOne_eq (remote : RemotePreview) (fd : ItemRecord) :
    ∃ v : Option String, settleOne remote fd = { fd with thumbnailUrl := some v } := by
  obtain ⟨v, hv⟩ := fetchThumbnailE_fst_ok remote fd
  exact ⟨v, by simp [settleOne, hv]⟩

theorem settleOne_match (remote : RemotePreview) (fd : ItemRecord) :
    SettledMatch fd (settleOne remote fd) := by
  obtain ⟨v, hv⟩ := settleOne_eq remote fd
  rw [hv]
  exact ⟨rfl, rfl, rfl, rfl, rfl, v, rfl⟩

/-- Slot-wise settling keeps the list's length and order and pairs every
input item with its settled counterpart. -/
theorem settleAll_forall2 (remotes : ℕ → RemotePreview) :
    ∀ (files : List ItemRecord) (i : ℕ),
      List.Forall₂ SettledMatch files (settleAll remotes i files)
  | [], _ => List.Forall₂.nil
  | fd :: rest, i =>
      List.Forall₂.cons (settleOne_match (remotes i) fd)
        (settleAll_forall2 remotes rest (i + 1))

/-- Shape of `event_stream` when the listing call raises. -/
theorem eventStream_listFail (env : BatchEnv) (order : List ℕ) (e : String)
    (hlist : driveFilesList env.drive PAGE_SIZE = Except.error e) :
    eventStream env order = ([errEvent e], [RemoteCall.filesList]) := by
  unfold eventStream
  rw [hlist]

/-- Shape of `event_stream` when the listing call returns `files`. -/
theorem eventStream_ok (env : BatchEnv) (order : List ℕ)
    (files : List ItemRecord)
    (hlist : driveFilesList env.drive PAGE_SIZE = Except.ok files) :
    eventStream env order =
      (firstProgress files.length ::
        (loopEvents files.length order 0 ++
          (match env.render (settleAll env.remotes 0 files) with
           | Except.ok html => [SseEvent.complete html]
           | Except.error e => [errEvent e])),
        RemoteCall.filesList :: workerCalls env.remotes 0 files) := by
  unfold eventStream
  rw [hlist]

/-- Counters of the loop events: `c + 1, ..., c + order.length`. -/
theorem processedCounts_loopEvents (total : ℕ) (order : List ℕ) :
    ∀ c : ℕ, processedCounts (loopEvents total order c) =
      List.range' (c + 1) order.length := by
  induction order with
  | nil => intro c; rfl
  | cons a rest ih =>
      intro c
      have h := ih (c + 1)
      simp only [loopEvents, processedCounts, List.filterMap_cons,
        List.length_cons] at h ⊢
      rw [List.range'_succ, ← h]

/-- The initial event contributes counter `0` in both of its branches. -/
theorem processedCounts_cons_firstProgress (n : ℕ) (l : List SseEvent) :
    processedCounts (firstProgress n :: l) = 0 :: processedCounts l := by
  unfold firstProgress
  by_cases h : n = 0 <;> simp [h, processedCounts, List.filterMap_cons]

/-- The terminal event contributes no counter. -/
theorem processedCounts_tail (r : Except String String) :
    processedCounts
      (match r with
       | Except.ok html => [SseEvent.complete html]
       | Except.error e => [errEvent e]) = [] := by
  cases r <;> simp [processedCounts, errEvent]

/-- Consecutive counters from `s` step by exactly one. -/
theorem chain_succ_range' : ∀ (k s : ℕ),
    List.Chain (fun a b => b = a + 1) s (List.range' (s + 1) k)
  | 0, _ => List.Chain.nil
  | k + 1, s => List.Chain.cons rfl (chain_succ_range' k (s + 1))

/-- Every event of the completion loop is a progress event carrying the
fixed total. -/
theorem loopEvents_mem (total : ℕ) (order : List ℕ) :
    ∀ (c : ℕ) (e : SseEvent), e ∈ loopEvents total order c →
      ∃ pc p, e = SseEvent.progress pc p total := by
  induction order with
  | nil => intro c e he; simp [loopEvents] at he
  | cons a rest ih =>
      intro c e he
      simp only [loopEvents] at he
      rcases List.mem_cons.mp he with h | h
      · exact ⟨_, _, h⟩
      · exact ih (c + 1) e h

/-- The worker's remote calls never include a Drive listing call. -/
theorem fetchBody_no_listCall (remote : RemotePreview) (pid : String) :
    RemoteCall.filesList ∉ (fetchBody remote pid).2 := by
  unfold fetchBody
  cases remote.getSlides with
  | error e => simp
  | ok sf =>
      rcases hsf : sf.getD [none] with _ | ⟨firstSlide, rest⟩
      · simp [hsf]
      · rcases firstSlide with _ | oid
        · simp [hsf]
        · by_cases ho : oid = ""
          · simp [hsf, ho]
          · cases remote.getThumb oid <;> simp [hsf, ho]

theorem fetchThumbnailE_no_listCall (remote : RemotePreview) (fd : ItemRecord) :
    RemoteCall.filesList ∉ (fetchThumbnailE remote fd).2 := by
  unfold fetchThumbnailE
  by_cases h : pyTruthy fd.id
  · simp only [h, if_true]
    have hnl := fetchBody_no_listCall remote (fd.id.getD "")
    rcases hfb : fetchBody remote (fd.id.getD "") with ⟨res, calls⟩
    rw [hfb] at hnl
    cases res <;> simpa using hnl
  · simp [h]

theorem workerCalls_no_listCall (remotes : ℕ → RemotePreview) :
    ∀ (files : List ItemRecord) (i : ℕ),
      RemoteCall.filesList ∉ workerCalls remotes i files := by
  intro files
  induction files with
  | nil => intro i; simp [workerCalls]
  | cons fd rest ih =>
      intro i h
      rcases List.mem_append.mp (by simpa [workerCalls] using h) with h1 | h1
      · exact fetchThumbnailE_no_listCall _ _ h1
      · exact ih (i + 1) h1

/-- A sample item record, slides behaviour that succeeds, one that fails,
and batch environments over them, used to instantiate the theorems below. -/
def itemA : ItemRecord :=
  { id := some "pres-1", name := some "Deck",
    createdTime := some "2024-01-01T00:00:00Z",
    modifiedTime := some "2024-01-02T00:00:00Z",
    webViewLink := some "https://docs.example/p1" }

def credA : CredDict :=
  { token := some "tok", refreshToken := some "ref",
    tokenUri := some "https://oauth2.example/token",
    clientId := some "cid", clientSecret := some "sec",
    scopes := ["https://www.googleapis.com/auth/drive.readonly"] }

def remoteOk : RemotePreview :=
  { getSlides := Except.ok (some [some "slide-1"]),
    getThumb := fun _ => Except.ok (some "https://img.example/t1") }

def remoteBoom : RemotePreview :=
  { getSlides := Except.error "network down",
    getThumb := fun _ => Except.error "unreachable" }

def envOne : BatchEnv :=
  { drive := { allItems := [itemA], listFailure := none },
    remotes := fun _ => remoteOk,
    render := fun _ => Except.ok "HTML" }

def envEmpty : BatchEnv :=
  { drive := { allItems := [], listFailure := none },
    remotes := fun _ => remoteOk,
    render := fun _ => Except.ok "HTML" }

def envBoom : BatchEnv :=
  { drive := { allItems := [itemA], listFailure := none },
    remotes := fun _ => remoteBoom,
    render := fun _ => Except.ok "HTML" }

def exchangeOk : TokenExchange :=
  { fetchToken := fun _ => Except.ok credA }

/-- C1: for every input sequence of item records, when the batch completes
the stream ends with a single terminal complete event carrying the rendered
result, and the settled record sequence pairs with the input sequence one to
one, in order, each record keeping its identity fields and having its
`thumbnailUrl` slot populated with a URL or the explicit `None` marker. -/
theorem C1_complete_delivers_all (env : BatchEnv) (order : List ℕ)
    (files : List ItemRecord) (html : String)
    (hlist : driveFilesList env.drive PAGE_SIZE = Except.ok files)
    (horder : order.Perm (List.range files.length))
    (hrender : env.render (settleAll env.remotes 0 files) = Except.ok html) :
    (eventStream env order).1 =
      (firstProgress files.length :: loopEvents files.length order 0) ++
        [SseEvent.complete html] ∧
    List.Forall₂ SettledMatch files (settleAll env.remotes 0 files) := by
  refine ⟨?_, settleAll_forall2 env.remotes files 0⟩
  rw [eventStream_ok env order files hlist, hrender]
  simp

theorem C1_witness :
    (eventStream envOne [0]).1 =
      (firstProgress 1 :: loopEvents 1 [0] 0) ++ [SseEvent.complete "HTML"] ∧
    List.Forall₂ SettledMatch [itemA] (settleAll envOne.remotes 0 [itemA]) :=
  C1_complete_delivers_all envOne [0] [itemA] "HTML" rfl
    (by decide) rfl

/-- C2: for a batch of N listed items, the processed counters carried by the
emitted progress events are exactly 0, 1, ..., N in emission order; hence no
counter exceeds N and consecutive progress events increase the counter by
exactly one. -/
theorem C2_processed_counter (env : BatchEnv) (order : List ℕ)
    (files : List ItemRecord)
    (hlist : driveFilesList env.drive PAGE_SIZE = Except.ok files)
    (horder : order.Perm (List.range files.length)) :
    processedCounts (eventStream env order).1 =
      List.range' 0 (files.length + 1) ∧
    (∀ p ∈ processedCounts (eventStream env order).1, p ≤ files.length) ∧
    List.Chain' (fun a b => b = a + 1)
      (processedCounts (eventStream env order).1) := by
  have hlen : order.length = files.length := by simpa using horder.length_eq
  have hcounts : processedCounts (eventStream env order).1 =
      0 :: List.range' 1 files.length := by
    rw [eventStream_ok env order files hlist]
    rw [processedCounts_cons_firstProgress]
    unfold processedCounts
    rw [List.filterMap_append]
    have h1 := processedCounts_loopEvents files.length order 0
    have h2 := processedCounts_tail (env.render (settleAll env.remotes 0 files))
    unfold processedCounts at h1 h2
    rw [h1, h2, hlen, List.append_nil]
  refine ⟨?_, ?_, ?_⟩
  · rw [hcounts, List.range'_succ]
  · intro p hp
    rw [hcounts] at hp
    rcases List.mem_cons.mp hp with h | h
    · omega
    · have := List.mem_range'_1.mp h
      omega
  · rw [hcounts]
    exact chain_succ_range' files.length 0

theorem C2_witness :
    processedCounts (eventStream envOne [0]).1 = List.range' 0 2 ∧
    (∀ p ∈ processedCounts (eventStream envOne [0]).1, p ≤ 1) ∧
    List.Chain' (fun a b => b = a + 1)
      (processedCounts (eventStream envOne [0]).1) :=
  C2_processed_counter envOne [0] [itemA] rfl (by decide)

/-- C3: when an item's preview resolution fails for any reason, the worker
unit still returns normally with the item's preview slot set to the `None`
marker; and for any per-item remote behaviour whatsoever, a batch whose
listing and rendering succeed emits no error event and terminates with the
complete event. -/
theorem C3_item_failure_contained (remote : RemotePreview) (fd : ItemRecord)
    (env : BatchEnv) (order : List ℕ) (files : List ItemRecord) (html : String)
    (hfail : previewResolutionFails remote fd)
    (hlist : driveFilesList env.drive PAGE_SIZE = Except.ok files)
    (hrender : env.render (settleAll env.remotes 0 files) = Except.ok html) :
    (fetchThumbnailE remote fd).1 =
      Except.ok { fd with thumbnailUrl := some none } ∧
    (∀ msg, SseEvent.error msg ∉ (eventStream env order).1) ∧
    (eventStream env order).1.getLast? = some (SseEvent.complete html) := by
  have hev : (eventStream env order).1 =
      (firstProgress files.length :: loopEvents files.length order 0) ++
        [SseEvent.complete html] := by
    rw [eventStream_ok env order files hlist, hrender]
    simp
  refine ⟨?_, ?_, ?_⟩
  · unfold fetchThumbnailE
    rcases hfail with h | ⟨e, he⟩ | hok
    · simp [h]
    · by_cases ht : pyTruthy fd.id
      · simp only [ht, if_true]
        rcases hfb : fetchBody remote (fd.id.getD "") with ⟨res, calls⟩
        rw [hfb] at he
        cases res with
        | ok u => exact absurd he (by simp)
        | error e2 => rfl
      · simp [ht]
    · by_cases ht : pyTruthy fd.id
      · simp only [ht, if_true]
        rcases hfb : fetchBody remote (fd.id.getD "") with ⟨res, calls⟩
        rw [hfb] at hok
        cases res with
        | ok u =>
            have : u = none := by simpa using hok
            rw [this]
        | error e2 => exact absurd hok (by simp)
      · simp [ht]
  · intro msg hmem
    rw [hev] at hmem
    rcases List.mem_append.mp hmem with h | h
    · rcases List.mem_cons.mp h with h1 | h1
      · unfold firstProgress at h1
        by_cases hn : files.length = 0 <;> simp [hn] at h1
      · obtain ⟨pc, p, hp⟩ := loopEvents_mem files.length order 0 _ h1
        simp at hp
    · simp at h
  · rw [hev]
    exact List.getLast?_concat _

theorem C3_witness :
    (fetchThumbnailE remoteBoom itemA).1 =
      Except.ok { itemA with thumbnailUrl := some none } ∧
    SseEvent.error "An error occurred: network down" ∉
      (eventStream envBoom [0]).1 ∧
    (eventStream envBoom [0]).1.getLast? = some (SseEvent.complete "HTML") := by
  have h := C3_item_failure_contained remoteBoom itemA envBoom [0] [itemA]
    "HTML" (Or.inr (Or.inl ⟨"network down", rfl⟩)) rfl rfl
  exact ⟨h.1, h.2.1 _, h.2.2⟩

/-- C4: every event sequence of a batch consists of zero or more progress
events followed by exactly one terminal event, which is a complete or an
error event; nothing follows the terminal event. -/
theorem C4_single_terminal (env : BatchEnv) (order : List ℕ) :
    ∃ pre last, (eventStream env order).1 = pre ++ [last] ∧
      (∀ e ∈ pre, ∃ pc p t, e = SseEvent.progress pc p t) ∧
      ((∃ h, last = SseEvent.complete h) ∨ (∃ m, last = SseEvent.error m)) := by
  rcases hdl : driveFilesList env.drive PAGE_SIZE with e | files
  · refine ⟨[], errEvent e, ?_, by simp, Or.inr ⟨_, rfl⟩⟩
    rw [eventStream_listFail env order e hdl]
    simp
  · have hpre : ∀ e ∈ firstProgress files.length ::
        loopEvents files.length order 0, ∃ pc p t, e = SseEvent.progress pc p t := by
      intro ev hev
      rcases List.mem_cons.mp hev with h1 | h1
      · subst h1
        unfold firstProgress
        by_cases hn : files.length = 0
        · exact ⟨100, 0, 0, by simp [hn]⟩
        · exact ⟨0, 0, files.length, by simp [hn]⟩
      · obtain ⟨pc, p, hp⟩ := loopEvents_mem files.length order 0 _ h1
        exact ⟨pc, p, files.length, hp⟩
    rcases hr : env.render (settleAll env.remotes 0 files) with e2 | html
    · refine ⟨firstProgress files.length :: loopEvents files.length order 0,
        errEvent e2, ?_, hpre, Or.inr ⟨_, rfl⟩⟩
      rw [eventStream_ok env order files hdl, hr]
      simp
    · refine ⟨firstProgress files.length :: loopEvents files.length order 0,
        SseEvent.complete html, ?_, hpre, Or.inl ⟨_, rfl⟩⟩
      rw [eventStream_ok env order files hdl, hr]
      simp

theorem C4_witness :
    ∃ pre last, (eventStream envOne [0]).1 = pre ++ [last] ∧
      (∀ e ∈ pre, ∃ pc p t, e = SseEvent.progress pc p t) ∧
      ((∃ h, last = SseEvent.complete h) ∨ (∃ m, last = SseEvent.error m)) :=
  C4_single_terminal envOne [0]

/-- C5: when the enumeration returns zero items, the stream is exactly one
progress event with percent 100, processed 0 and total 0, followed by the
single terminal complete event carrying the rendered result. -/
theorem C5_empty_batch (env : BatchEnv) (order : List ℕ) (html : String)
    (hlist : driveFilesList env.drive PAGE_SIZE = Except.ok [])
    (horder : order.Perm (List.range 0))
    (hrender : env.render (settleAll env.remotes 0 []) = Except.ok html) :
    (eventStream env order).1 =
      [SseEvent.progress 100 0 0, SseEvent.complete html] := by
  have ho : order = [] := horder.eq_nil
  subst ho
  rw [eventStream_ok env [] [] hlist, hrender]
  simp [firstProgress, loopEvents]

theorem C5_witness :
    (eventStream envEmpty []).1 =
      [SseEvent.progress 100 0 0, SseEvent.complete "HTML"] :=
  C5_empty_batch envEmpty [] "HTML" rfl (List.Perm.refl _) rfl

/-- C7: an authenticated request whose Accept header does not contain the
event-stream media type gets the static placeholder page and causes no
remote call at all: no enumeration and no preview fetch. -/
theorem C7_non_sse_static_page (session : Session) (creds : CredDict)
    (acceptHeader : String) (env : BatchEnv) (order : List ℕ)
    (hauth : session.credentials = some creds)
    (haccept : strContains acceptHeader "text/event-stream" = false) :
    listPresentations session acceptHeader progressPagePresent env order =
      (RouteResponse.fileResponse "progress.html", []) := by
  simp [listPresentations, hauth, haccept, progressPagePresent]

theorem C7_witness :
    listPresentations { credentials := some credA, state := none } "text/html"
        progressPagePresent envOne [0] =
      (RouteResponse.fileResponse "progress.html", []) :=
  C7_non_sse_static_page _ credA "text/html" envOne [0] rfl (by decide)

/-- C8: a request to the batch endpoint with no credentials in the session is
answered with a 303 redirect to the login flow, causes no remote call, and is
neither an event stream, nor a page (200) response, nor an error response. -/
theorem C8_unauthenticated_redirect (session : Session) (acceptHeader : String)
    (pageExists : Bool) (env : BatchEnv) (order : List ℕ)
    (hnone : session.credentials = none) :
    listPresentations session acceptHeader pageExists env order =
      (RouteResponse.redirect "/login" 303, []) ∧
    (∀ evs, (listPresentations session acceptHeader pageExists env order).1 ≠
      RouteResponse.eventStreamResponse evs) ∧
    (∀ p, (listPresentations session acceptHeader pageExists env order).1 ≠
      RouteResponse.fileResponse p) ∧
    (∀ c d, (listPresentations session acceptHeader pageExists env order).1 ≠
      RouteResponse.httpError c d) := by
  have h : listPresentations session acceptHeader pageExists env order =
      (RouteResponse.redirect "/login" 303, []) := by
    simp [listPresentations, hnone]
  exact ⟨h, fun evs => by simp [h], fun p => by simp [h], fun c d => by simp [h]⟩

theorem C8_witness :
    listPresentations { credentials := none, state := none }
        "text/event-stream" true envOne [0] =
      (RouteResponse.redirect "/login" 303, []) ∧
    (listPresentations { credentials := none, state := none }
        "text/event-stream" true envOne [0]).1 ≠
      RouteResponse.eventStreamResponse [] ∧
    (listPresentations { credentials := none, state := none }
        "text/event-stream" true envOne [0]).1 ≠
      RouteResponse.fileResponse "progress.html" ∧
    (listPresentations { credentials := none, state := none }
        "text/event-stream" true envOne [0]).1 ≠
      RouteResponse.httpError 200 "OK" := by
  have h := C8_unauthenticated_redirect { credentials := none, state := none }
    "text/event-stream" true envOne [0] rfl
  exact ⟨h.1, h.2.1 [], h.2.2.1 "progress.html", h.2.2.2 200 "OK"⟩

/-- C9: a batch enumerates at most the first 1000 remote items: the whole
event stream (and its remote calls) is unchanged when every remote item
beyond the first 1000 is removed, exactly one Drive listing call is issued
(no continuation), and every progress event's total is at most 1000. -/
theorem C9_first_1000_only (env : BatchEnv) (order : List ℕ) :
    eventStream
        { env with drive :=
            { env.drive with allItems := env.drive.allItems.take PAGE_SIZE } }
        order =
      eventStream env order ∧
    (eventStream env order).2.count RemoteCall.filesList = 1 ∧
    (∀ pc p t, SseEvent.progress pc p t ∈ (eventStream env order).1 →
      t ≤ PAGE_SIZE) := by
  obtain ⟨⟨items, lf⟩, remotes, render⟩ := env
  refine ⟨?_, ?_, ?_⟩
  · unfold eventStream driveFilesList
    cases lf with
    | some e => rfl
    | none => simp [List.take_take]
  · rcases hdl : driveFilesList ⟨items, lf⟩ PAGE_SIZE with e | files
    · rw [eventStream_listFail _ order e hdl]
      rfl
    · rw [eventStream_ok _ order files hdl]
      have hz : (workerCalls remotes 0 files).count RemoteCall.filesList = 0 :=
        List.count_eq_zero.mpr (workerCalls_no_listCall remotes files 0)
      simp only [List.count_cons_self]
      rw [hz]
  · intro pc p t hmem
    rcases hdl : driveFilesList ⟨items, lf⟩ PAGE_SIZE with e | files
    · rw [eventStream_listFail _ order e hdl] at hmem
      simp [errEvent] at hmem
    · have hlen : files.length ≤ PAGE_SIZE := by
        unfold driveFilesList at hdl
        cases lf with
        | some e => exact absurd hdl (by simp)
        | none =>
            have : items.take PAGE_SIZE = files := by simpa using hdl
            rw [← this]
            simp [List.length_take]
      rw [eventStream_ok _ order files hdl] at hmem
      dsimp only at hmem
      rcases List.mem_cons.mp hmem with h1 | h1
      · unfold firstProgress at h1
        by_cases hn : files.length = 0
        · simp [hn] at h1
          omega
        · simp [hn] at h1
          omega
      · rcases List.mem_append.mp h1 with h2 | h2
        · obtain ⟨pc2, p2, hp⟩ := loopEvents_mem files.length order 0 _ h2
          injection hp with hpc hp2 ht
          omega
        · rcases hr : render (settleAll remotes 0 files) with e2 | html <;>
            rw [hr] at h2 <;> simp [errEvent] at h2

theorem C9_witness :
    eventStream
        { envEmpty with drive :=
            { envEmpty.drive with
                allItems := envEmpty.drive.allItems.take PAGE_SIZE } } [] =
      eventStream envEmpty [] ∧
    (eventStream envEmpty []).2.count RemoteCall.filesList = 1 ∧
    (0 : ℕ) ≤ PAGE_SIZE := by
  have h := C9_first_1000_only envEmpty []
  exact ⟨h.1, h.2.1, h.2.2 100 0 0 (List.mem_cons_self _ _)⟩

/-- C10: an OAuth2 callback with a non-empty error parameter or a state that
does not match the stored session state is answered with HTTP 400 and leaves
the session, in particular its stored credentials, unchanged. -/
theorem C10_callback_failure_no_write (session : Session)
    (exchange : TokenExchange) (code state err : String)
    (hfail : 0 < err.length ∨ stateMatches session state = false) :
    ∃ d, oauth2Callback session exchange code state err =
        (CallbackResult.httpError 400 d, session) ∧
      (oauth2Callback session exchange code state err).2.credentials =
        session.credentials := by
  by_cases he : 0 < err.length
  · exact ⟨err, by simp [oauth2Callback, he], by simp [oauth2Callback, he]⟩
  · have hs : stateMatches session state = false := hfail.resolve_left he
    exact ⟨"State mismatch", by simp [oauth2Callback, he, hs],
      by simp [oauth2Callback, he, hs]⟩

theorem C10_witness :
    ∃ d, oauth2Callback { credentials := none, state := some "xyz" }
        exchangeOk "authcode" "wrong-state" "" =
        (CallbackResult.httpError 400 d,
          { credentials := none, state := some "xyz" }) ∧
      (oauth2Callback { credentials := none, state := some "xyz" }
        exchangeOk "authcode" "wrong-state" "").2.credentials = none :=
  C10_callback_failure_no_write { credentials := none, state := some "xyz" }
    exchangeOk "authcode" "wrong-state" "" (Or.inr (by decide))

end Chomikai
